import Mathlib

/-!
Verification of the unified-naming-convention declaration corpus.

The repository under verification contains no executable code: every source
file is an ambient TypeScript declaration file (.d.ts) describing the global
API surface of an external scripting host.  The shallow embedding below
therefore models the program as what it is — a corpus of declaration files.
Each file is transcribed, declaration by declaration, into a Lean data
structure: type annotations become values of the syntax type `Ty`,
function/const/interface/alias/namespace declarations become values of
`Decl`, and the files themselves values of `SourceFile`.  The claims are then
stated as (mostly decidable) properties of this transcription.

Transcription conventions, chosen once and used uniformly:
  * Type-argument lists, tuple element lists, function-type parameter lists
    and template-literal parts are encoded as cons-chains inside `Ty`
    (`tcons`/`tnil`, built with `tlist`); object-type member lists use
    `objCons`/`objNil` (built with `olist`).  TypeScript union syntax
    `a | b | c` is right-nested binary `union`.
  * Parameters of a *declaration* keep their name and optionality
    (`Param`); parameters inside a function *type* and of interface methods
    are recorded by type only (an optional one is wrapped in `optP`), and a
    Luau `this` parameter is recorded as the first parameter type.
  * Names declared inside a namespace are stored fully qualified
    ("cache.invalidate"); `typeof x` references are stored with the resolved
    qualified name.
  * `scope` records where a declaration lives: `glob` for members of
    `declare global` (or the top level of a non-module file), `modLocal` for
    top-level declarations of a module file (one containing `export {}`),
    which TypeScript keeps private to that file.
  * `hasBody`/`hasInit` record whether the source declaration carries an
    implementation body or initializer (none does, the corpus is ambient);
    `isConst` records `const` (as opposed to `let`/`var`) for variables.
-/

set_option maxRecDepth 100000

namespace UNC

/-- Syntax of the TypeScript type expressions occurring in the corpus. -/
inductive Ty where
  | base (n : String)
  | slit (s : String)
  | nlit (n : Nat)
  | app1 (n : String) (a : Ty)
  | app2 (n : String) (a : Ty) (b : Ty)
  | union (a : Ty) (b : Ty)
  | tnil
  | tcons (h : Ty) (t : Ty)
  | tup (es : Ty)
  | fnT (ps : Ty) (r : Ty)
  | variadic (t : Ty)
  | optP (t : Ty)
  | arr (t : Ty)
  | objNil
  | objCons (fieldName : String) (ft : Ty) (rest : Ty)
  | obj (fs : Ty)
  | typeofRef (n : String)
  | keyOf (t : Ty)
  | idx (t : Ty) (k : Ty)
  | tpred (v : String) (n : String)
  | cond (c : Ty) (e : Ty) (th : Ty) (el : Ty)
  | tmpl (parts : Ty)
  | inferT (n : String)
  | tfor (v : String) (c : Ty) (b : Ty)
  | idxSig (k : Ty) (v : Ty)
deriving Repr, DecidableEq

/-- Build a `tcons` chain from a Lean list of types. -/
def tlist (l : List Ty) : Ty := l.foldr .tcons .tnil

/-- Build an `objCons` chain from a Lean list of named members. -/
def olist (l : List (String × Ty)) : Ty := l.foldr (fun p r => .objCons p.1 p.2 r) .objNil

/-- Scope of a declaration: global ambient, or private to its module file. -/
inductive Scope where
  | glob
  | modLocal
deriving Repr, DecidableEq

/-- A generic type parameter with optional constraint and optional default. -/
structure TyParam where
  tpName : String
  constr : Option Ty
  dflt : Option Ty
deriving Repr, DecidableEq

/-- A declared value parameter: name, type, and whether it is optional. -/
structure Param where
  pname : String
  pty : Ty
  popt : Bool
deriving Repr, DecidableEq

/-- A member of an interface or object type (methods carry a `fnT` type). -/
structure Field where
  fname : String
  fty : Ty
  fopt : Bool
  fro : Bool
deriving Repr, DecidableEq

/-- A top-level declaration of a source file. -/
inductive Decl where
  | fnD (sc : Scope) (dname : String) (tps : List TyParam) (ps : List Param) (ret : Ty)
      (hasBody : Bool)
  | constD (sc : Scope) (dname : String) (dty : Ty) (isConst : Bool) (hasInit : Bool)
  | ifaceD (sc : Scope) (dname : String) (ext : List String) (fs : List Field)
  | aliasD (sc : Scope) (dname : String) (tps : List String) (rhs : Ty)
  | nsD (sc : Scope) (dname : String)
  | ifaceAugD (target : String) (fs : List Field)
  | modExportD (modName : String) (dname : String) (dty : Ty)
deriving Repr, DecidableEq

/-- A declaration file of the repository. -/
structure SourceFile where
  path : String
  isModule : Bool
  noDefaultLib : Bool
  refPaths : List String
  refTypes : List String
  decls : List Decl
deriving Repr, DecidableEq

/-! Abbreviations for frequently occurring type expressions. -/

def str : Ty := .base "string"
def num : Ty := .base "number"
def boolT : Ty := .base "boolean"
def voidT : Ty := .base "void"
def anyT : Ty := .base "any"
def unk : Ty := .base "unknown"
def undefT : Ty := .base "undefined"
def instT : Ty := .base "Instance"

/-- The rest parameter `...args: any[]`. -/
def varargsAny : Ty := .variadic (.arr anyT)

/-- The function type `(...args: any[]) => any` (rhs of the `Callback` aliases). -/
def callbackTy : Ty := .fnT (tlist [varargsAny]) anyT

/-- `Callback | number`, the "function or stack level" parameter type. -/
def cbOrNum : Ty := .union (.base "Callback") num

/-- `LocalScript | ModuleScript`. -/
def lsOrMs : Ty := .union (.base "LocalScript") (.base "ModuleScript")

/-! Builders mirroring the declaration forms of the source. -/

def pr (n : String) (t : Ty) : Param := ⟨n, t, false⟩
def po (n : String) (t : Ty) : Param := ⟨n, t, true⟩
def gfn (n : String) (ps : List Param) (r : Ty) : Decl := .fnD .glob n [] ps r false
def gfnG (n : String) (tps : List TyParam) (ps : List Param) (r : Ty) : Decl :=
  .fnD .glob n tps ps r false
def fl (n : String) (t : Ty) : Field := ⟨n, t, false, false⟩
def flo (n : String) (t : Ty) : Field := ⟨n, t, true, false⟩
def flr (n : String) (t : Ty) : Field := ⟨n, t, false, true⟩
def mth (n : String) (ps : List Ty) (r : Ty) : Field := ⟨n, .fnT (tlist ps) r, false, false⟩
def tp (n : String) : TyParam := ⟨n, none, none⟩
def tpc (n : String) (c : Ty) : TyParam := ⟨n, some c, none⟩

/-! ## Transcription of the seventeen source files -/

/-- `cloneref<O extends Instance>(object: O): O` (types/api/cache.d.ts:68). -/
def clonerefDecl : Decl := gfnG "cloneref" [tpc "O" instT] [pr "object" (.base "O")] (.base "O")

/-- types/api/cache.d.ts: the `cache` namespace plus `cloneref` / `compareinstances`. -/
def cacheFile : SourceFile :=
  ⟨"types/api/cache.d.ts", true, true, [], [],
   [.nsD .glob "cache",
    gfn "cache.invalidate" [pr "object" instT] voidT,
    gfn "cache.iscached" [pr "object" instT] boolT,
    gfn "cache.replace" [pr "object" instT, pr "newObject" instT] voidT,
    clonerefDecl,
    gfn "compareinstances" [pr "a" instT, pr "b" instT] boolT]⟩

/-- types/api/console.d.ts: the console-window functions and their aliases. -/
def consoleFile : SourceFile :=
  ⟨"types/api/console.d.ts", true, true, [], [],
   [gfn "rconsoleclear" [] voidT,
    gfn "consoleclear" [] voidT,
    gfn "rconsolecreate" [] voidT,
    gfn "consolecreate" [] voidT,
    gfn "rconsoledestroy" [] voidT,
    gfn "consoledestroy" [] voidT,
    gfn "rconsoleinput" [] str,
    gfn "consoleinput" [] str,
    gfn "rconsoleprint" [pr "text" str] voidT,
    gfn "consoleprint" [pr "text" str] voidT,
    gfn "rconsolesettitle" [pr "title" str] voidT,
    gfn "rconsolename" [pr "title" str] voidT,
    gfn "consolesettitle" [pr "title" str] voidT]⟩

/-- types/api/crypt.d.ts: Base64 helpers.  Inside `namespace crypt` the source
writes `typeof base64encode`; the reference is stored resolved, as
`typeof crypt.base64encode`. -/
def cryptFile : SourceFile :=
  ⟨"types/api/crypt.d.ts", true, true, [], [],
   [.nsD .glob "crypt",
    gfn "crypt.base64encode" [pr "data" str] str,
    gfn "crypt.base64decode" [pr "data" str] str,
    .constD .glob "crypt.base64_encode" (.typeofRef "crypt.base64encode") true false,
    .constD .glob "crypt.base64_decode" (.typeofRef "crypt.base64decode") true false,
    .nsD .glob "crypt.base64",
    .constD .glob "crypt.base64.encode" (.typeofRef "crypt.base64encode") true false,
    .constD .glob "crypt.base64.decode" (.typeofRef "crypt.base64decode") true false,
    .constD .glob "base64_encode" (.typeofRef "crypt.base64encode") true false,
    .constD .glob "base64_decode" (.typeofRef "crypt.base64decode") true false,
    .nsD .glob "base64",
    .constD .glob "base64.encode" (.typeofRef "crypt.base64encode") true false,
    .constD .glob "base64.decode" (.typeofRef "crypt.base64decode") true false]⟩

/-- types/api/debug.d.ts: the global `debug` namespace.  `getinfo`'s return
type is written `DebugInfo` in the source (resolving to the interface declared
inside the same namespace) and is stored as written. -/
def debugFile : SourceFile :=
  ⟨"types/api/debug.d.ts", true, true, [], [],
   [.nsD .glob "debug",
    gfn "debug.getconstant" [pr "func" cbOrNum, pr "index" num] unk,
    gfn "debug.getconstants" [pr "func" cbOrNum] (.arr unk),
    .ifaceD .glob "debug.DebugInfo" []
      [fl "source" str, fl "short_src" str, fl "func" (.base "Callback"),
       fl "what" (.union (.slit "Lua") (.slit "C")), fl "currentline" num,
       fl "name" str, fl "nups" num, fl "numparams" num,
       fl "is_vararg" (.union (.nlit 0) (.nlit 1))],
    gfn "debug.getinfo" [pr "func" cbOrNum] (.base "DebugInfo"),
    gfn "debug.getproto" [pr "func" cbOrNum, pr "index" num, po "active" boolT]
      (.union (.base "Callback") (.arr (.base "Callback"))),
    gfn "debug.getprotos" [pr "func" cbOrNum] (.arr (.base "Callback")),
    gfn "debug.getstack" [pr "level" num, po "index" num] (.union unk (.arr unk)),
    gfn "debug.getupvalue" [pr "func" cbOrNum, pr "index" num] unk,
    gfn "debug.getupvalues" [pr "func" cbOrNum] (.arr unk),
    gfn "debug.setconstant" [pr "func" cbOrNum, pr "index" num, pr "value" unk] voidT,
    gfn "debug.setstack" [pr "level" num, pr "index" num, pr "value" unk] voidT,
    gfn "debug.setupvalue" [pr "func" cbOrNum, pr "index" num, pr "value" unk] voidT]⟩

/-- `InstantiableDrawings[keyof InstantiableDrawings]`, the constraint of the
drawing-object type parameters. -/
def instDraw : Ty := .idx (.base "InstantiableDrawings") (.keyOf (.base "InstantiableDrawings"))

/-- types/api/drawing.d.ts: the `Drawing` interface/value pair, the render
helpers, and the drawing-object shapes. -/
def drawingFile : SourceFile :=
  ⟨"types/api/drawing.d.ts", true, true, [], [],
   [.constD .glob "Drawing" (.base "Drawing") true false,
    .ifaceD .glob "Drawing" []
      [fl "new" (.tfor "T" (.keyOf (.base "InstantiableDrawings"))
         (.fnT (tlist [.base "T"]) (.idx (.base "InstantiableDrawings") (.base "T")))),
       flr "Fonts" (.obj (olist
         [("UI", .nlit 0), ("System", .nlit 1), ("Plex", .nlit 2), ("Monospace", .nlit 3)]))],
    gfn "cleardrawcache" [] voidT,
    gfnG "getrenderproperty" [tpc "D" instDraw, tpc "P" (.keyOf (.base "D"))]
      [pr "drawing" (.base "D"), pr "property" (.base "P")] (.idx (.base "D") (.base "P")),
    gfnG "setrenderproperty" [tpc "D" instDraw, tpc "P" (.keyOf (.base "D"))]
      [pr "drawing" (.base "D"), pr "property" (.base "P"),
       pr "value" (.idx (.base "D") (.base "P"))] voidT,
    gfn "isrenderobj" [pr "object" unk] (.tpred "object" "BaseDrawing"),
    .aliasD .glob "InstantiableDrawings" [] (.obj (olist
      [("Line", .base "Line"), ("Text", .base "Text"), ("Image", .base "Image"),
       ("Circle", .base "Circle"), ("Square", .base "Square"), ("Quad", .base "Quad"),
       ("Triangle", .base "Triangle")])),
    .ifaceD .glob "BaseDrawing" []
      [fl "Visible" boolT, fl "ZIndex" num, fl "Transparency" num, fl "Color" (.base "Color3"),
       mth "Destroy" [] voidT],
    .ifaceD .glob "Line" ["BaseDrawing"]
      [fl "From" (.base "Vector2"), fl "To" (.base "Vector2"), fl "Thickness" num],
    .ifaceD .glob "Text" ["BaseDrawing"]
      [fl "Text" str, flr "TextBounds" (.base "Vector2"), fl "Font" num, fl "Size" num,
       fl "Position" (.base "Vector2"), fl "Center" boolT, fl "Outline" boolT,
       fl "OutlineColor" (.base "Color3")],
    .ifaceD .glob "Image" ["BaseDrawing"]
      [fl "Data" str, fl "Size" (.base "Vector2"), fl "Position" (.base "Vector2"),
       fl "Rounding" num],
    .ifaceD .glob "Circle" ["BaseDrawing"]
      [fl "NumSides" num, fl "Radius" num, fl "Position" (.base "Vector2"),
       fl "Thickness" num, fl "Filled" boolT],
    .ifaceD .glob "Square" ["BaseDrawing"]
      [fl "Size" (.base "Vector2"), fl "Position" (.base "Vector2"), fl "Thickness" num,
       fl "Filled" boolT],
    .ifaceD .glob "Quad" ["BaseDrawing"]
      [fl "PointA" (.base "Vector2"), fl "PointB" (.base "Vector2"),
       fl "PointC" (.base "Vector2"), fl "PointD" (.base "Vector2"), fl "Thickness" num,
       fl "Filled" boolT],
    .ifaceD .glob "Triangle" ["BaseDrawing"]
      [fl "PointA" (.base "Vector2"), fl "PointB" (.base "Vector2"),
       fl "PointC" (.base "Vector2"), fl "Thickness" num, fl "Filled" boolT]]⟩

/-- `loadfile(path: string, chunkname?: string): Callback | LuaTuple<[undefined, string]>`
(types/api/filesystem.d.ts:165). -/
def loadfileDecl : Decl :=
  gfn "loadfile" [pr "path" str, po "chunkname" str]
    (.union (.base "Callback") (.app1 "LuaTuple" (.tup (tlist [undefT, str]))))

/-- types/api/filesystem.d.ts: the filesystem shims. -/
def filesystemFile : SourceFile :=
  ⟨"types/api/filesystem.d.ts", true, true, [], [],
   [gfn "readfile" [pr "path" str] str,
    gfn "listfiles" [pr "path" str] (.arr str),
    gfn "writefile" [pr "path" str, pr "data" str] voidT,
    gfn "makefolder" [pr "path" str] voidT,
    gfn "appendfile" [pr "path" str, pr "data" str] voidT,
    gfn "isfile" [pr "path" str] boolT,
    gfn "isfolder" [pr "path" str] boolT,
    gfn "delfile" [pr "path" str] voidT,
    gfn "delfolder" [pr "path" str] voidT,
    loadfileDecl,
    gfn "dofile" [pr "path" str] voidT]⟩

/-- The eleven input-simulation declarations shared verbatim by
types/api/input.d.ts and unnamed/part_002. -/
def sharedInputDecls : List Decl :=
  [gfn "isrbxactive" [] boolT,
   gfn "isgameactive" [] boolT,
   gfn "mouse1click" [] voidT,
   gfn "mouse1press" [] voidT,
   gfn "mouse1release" [] voidT,
   gfn "mouse2click" [] voidT,
   gfn "mouse2press" [] voidT,
   gfn "mouse2release" [] voidT,
   gfn "mousemoveabs" [pr "x" num, pr "y" num] voidT,
   gfn "mousemoverel" [pr "x" num, pr "y" num] voidT,
   gfn "mousescroll" [pr "pixels" num] voidT]

/-- types/api/input.d.ts: the shared input block plus `keypress`/`keyrelease`. -/
def inputFile : SourceFile :=
  ⟨"types/api/input.d.ts", true, true, [], [],
   sharedInputDecls ++
   [gfn "keypress" [pr "key" num] voidT,
    gfn "keyrelease" [pr "key" num] voidT]⟩

/-- unnamed/part_002: a second copy of the input-simulation file, without
`keypress` and `keyrelease`. -/
def part002File : SourceFile :=
  ⟨"unnamed/part_002", true, true, [], [], sharedInputDecls⟩

/-- The members of the `Connection` interface (types/api/instances.d.ts:62-95). -/
def connectionFields : List Field :=
  [fl "Enabled" boolT,
   fl "ForeignState" boolT,
   fl "LuaConnection" boolT,
   fl "Function" (.union (.base "Callback") undefT),
   fl "Thread" (.union unk undefT),
   mth "Fire" [varargsAny] voidT,
   mth "Defer" [varargsAny] voidT,
   mth "Disconnect" [] voidT,
   mth "Disable" [] voidT,
   mth "Enable" [] voidT]

/-- `getcallbackvalue(object: Instance, property: string): Callback | undefined`
(types/api/instances.d.ts:41). -/
def getcallbackvalueDecl : Decl :=
  gfn "getcallbackvalue" [pr "object" instT, pr "property" str]
    (.union (.base "Callback") undefT)

/-- types/api/instances.d.ts: instance helpers.  This file has no directive
lines; its two top-level type aliases are module-local. -/
def instancesFile : SourceFile :=
  ⟨"types/api/instances.d.ts", true, false, [], [],
   [.aliasD .modLocal "Callback" [] callbackTy,
    .aliasD .modLocal "ClickDetectorEvents" []
      (.union (.slit "MouseClick") (.union (.slit "RightMouseClick")
        (.union (.slit "MouseHoverEnter") (.slit "MouseHoverLeave")))),
    gfn "fireclickdetector"
      [pr "object" (.base "ClickDetector"), po "distance" num,
       po "event" (.base "ClickDetectorEvents")] voidT,
    getcallbackvalueDecl,
    gfn "getconnections" [pr "signal" (.base "RBXScriptSignal")] (.arr (.base "Connection")),
    .ifaceD .glob "Connection" [] connectionFields,
    gfn "getcustomasset" [pr "path" str, pr "noCache" boolT] str,
    gfnG "gethiddenproperty" [tp "V"] [pr "object" instT, pr "property" str]
      (.app1 "LuaTuple" (.tup (tlist [.base "V", boolT]))),
    gfn "sethiddenproperty" [pr "object" instT, pr "property" str, pr "value" anyT] boolT,
    gfn "gethui" [] instT,
    gfn "getinstances" [] (.arr instT),
    gfn "getnilinstances" [] (.arr instT),
    gfn "isscriptable" [pr "object" instT, pr "property" str] (.union boolT undefT),
    gfn "setscriptable" [pr "object" instT, pr "property" str, pr "value" boolT] boolT,
    gfn "setrbxclipboard" [pr "data" str] boolT]⟩

/-- One template-literal pattern of `roblox_debug.info`: as many `infer`
positions as named letters, then a trailing `infer _`. -/
def infoPat (letters : List String) : Ty :=
  .tmpl (tlist (letters.map .inferT ++ [.inferT "_"]))

/-- `LuaTuple<TS.InfoFlags<[...]>>` over the given inferred letters. -/
def infoFlags (letters : List String) : Ty :=
  .app1 "LuaTuple" (.app1 "TS.InfoFlags" (.tup (tlist (letters.map .base))))

/-- The nested conditional return type of `roblox_debug.info`
(types/api/scripts.d.ts), shared verbatim by its two overloads. -/
def infoRet : Ty :=
  .cond (.base "T") (infoPat ["A", "B", "C", "D", "E"]) (infoFlags ["A", "B", "C", "D", "E"])
    (.cond (.base "T") (infoPat ["A", "B", "C", "D"]) (infoFlags ["A", "B", "C", "D"])
      (.cond (.base "T") (infoPat ["A", "B", "C"]) (infoFlags ["A", "B", "C"])
        (.cond (.base "T") (infoPat ["A", "B"]) (infoFlags ["A", "B"])
          (.cond (.base "T") (infoPat ["A"]) (infoFlags ["A"])
            (.app1 "LuaTuple" (.tup (tlist [unk, unk, unk, unk, unk])))))))

/-- types/api/scripts.d.ts: script/environment reflection.  The
`roblox_debug` namespace is declared at the top level of this module file,
so it and its member signatures are module-local. -/
def scriptsFile : SourceFile :=
  ⟨"types/api/scripts.d.ts", true, true, [], [],
   [.aliasD .modLocal "Callback" [] callbackTy,
    .nsD .modLocal "roblox_debug",
    .fnD .modLocal "roblox_debug.traceback" [] [po "message" str, po "level" num] str false,
    .fnD .modLocal "roblox_debug.traceback" []
      [pr "thread" (.base "thread"), po "message" str, po "level" num] str false,
    .fnD .modLocal "roblox_debug.profilebegin" [] [pr "profileName" str] voidT false,
    .fnD .modLocal "roblox_debug.profileend" [] [] voidT false,
    .fnD .modLocal "roblox_debug.info" [tpc "T" str]
      [pr "thread" (.base "thread"), pr "functionOrLevel" cbOrNum, pr "options" (.base "T")]
      infoRet false,
    .fnD .modLocal "roblox_debug.info" [tpc "T" str]
      [pr "functionOrLevel" cbOrNum, pr "options" (.base "T")] infoRet false,
    .fnD .modLocal "roblox_debug.setmemorycategory" [] [pr "tag" str] voidT false,
    .fnD .modLocal "roblox_debug.resetmemorycategory" [] [] voidT false,
    .fnD .glob "getgc" [⟨"I", some boolT, some (.base "false")⟩] [po "includeTables" (.base "I")]
      (.app1 "Array" (.cond (.base "I") (.base "true") unk (.base "Callback"))) false,
    gfn "getgenv" [] (.app2 "Record" str anyT),
    gfn "getloadedmodules" [po "excludeCore" boolT] (.arr (.base "ModuleScript")),
    .ifaceD .glob "Roblox_G" [] [],
    gfn "getrenv" [] (.obj (olist
      [("_G", .base "Roblox_G"), ("require", .typeofRef "require"),
       ("print", .typeofRef "print"), ("warn", .typeofRef "warn"),
       ("error", .typeofRef "error"), ("debug", .typeofRef "roblox_debug")])),
    gfn "getrunningscripts" [] (.app1 "Array" lsOrMs),
    gfn "getscriptbytecode" [pr "script" lsOrMs] str,
    gfn "dumpstring" [pr "script" lsOrMs] str,
    gfn "getscriptclosure" [pr "script" lsOrMs] (.base "Callback"),
    gfn "getscriptfunction" [pr "script" lsOrMs] (.base "Callback"),
    gfn "getscripthash" [pr "script" lsOrMs] str,
    gfn "getscripts" [] (.app1 "Array" lsOrMs),
    gfn "getsenv" [pr "script" lsOrMs] (.idxSig str anyT),
    gfn "getthreadidentity" [] num,
    gfn "getidentity" [] num,
    gfn "getthreadcontext" [] num,
    gfn "setthreadidentity" [pr "identity" num] voidT,
    gfn "setidentity" [pr "identity" num] voidT,
    gfn "setthreadcontext" [pr "identity" num] voidT]⟩

/-- The `DataModel` method override shared by the two index files. -/
def dataModelAug : List Field := [mth "HttpGet" [str] str]

/-- The `Services` override shared by the two index files. -/
def servicesAug : List Field :=
  [fl "CoreGui" (.base "CoreGui"),
   fl "VirtualInputManager" (.base "VirtualInputManager"),
   fl "VirtualUser" (.base "VirtualUser")]

/-- The three `declare module "@rbxts/services"` re-exports shared by the two
index files. -/
def servicesReExports : List Decl :=
  [.modExportD "@rbxts/services" "CoreGui" (.idx (.base "Services") (.slit "CoreGui")),
   .modExportD "@rbxts/services" "VirtualInputManager"
     (.idx (.base "Services") (.slit "VirtualInputManager")),
   .modExportD "@rbxts/services" "VirtualUser" (.idx (.base "Services") (.slit "VirtualUser"))]

/-- types/index.d.ts: reference directives, the `DataModel`/`Services`
overrides and the @rbxts/services re-export block.  The file has no
`export {}`, so it is a global script file. -/
def indexFile : SourceFile :=
  ⟨"types/index.d.ts", false, true,
   ["roblox.d.ts", "api/cache.d.ts", "api/closures.d.ts", "api/console.d.ts",
    "api/crypt.d.ts", "api/debug.d.ts", "api/drawing.d.ts", "api/filesystem.d.ts",
    "api/input.d.ts", "api/instances.d.ts", "api/metatable.d.ts", "api/misc.d.ts",
    "api/scripts.d.ts", "api/websocket.d.ts"],
   ["@rbxts/types"],
   [.ifaceAugD "DataModel" dataModelAug,
    .ifaceAugD "Services" servicesAug] ++ servicesReExports⟩

/-- unnamed/part_000: a second index file with a shorter reference list and
the same overrides and re-export block. -/
def part000File : SourceFile :=
  ⟨"unnamed/part_000", false, true,
   ["roblox.d.ts", "api/closures.d.ts", "api/drawing.d.ts", "api/input.d.ts",
    "api/instances.d.ts"],
   ["@rbxts/types"],
   [.ifaceAugD "DataModel" dataModelAug,
    .ifaceAugD "Services" servicesAug] ++ servicesReExports⟩

/-- `clonefunction<F extends (...args: any[]) => any>(func: F): F`
(unnamed/part_001:53). -/
def clonefunctionDecl : Decl :=
  gfnG "clonefunction" [tpc "F" callbackTy] [pr "func" (.base "F")] (.base "F")

/-- `newcclosure<F extends (...args: any[]) => any>(func: F): F`
(unnamed/part_001:193). -/
def newcclosureDecl : Decl :=
  gfnG "newcclosure" [tpc "F" callbackTy] [pr "func" (.base "F")] (.base "F")

/-- The members of `HttpResponse` (unnamed/part_001:312-318). -/
def httpResponseFields : List Field :=
  [fl "Body" str, fl "StatusCode" num, fl "StatusMessage" str, fl "Success" boolT,
   fl "Headers" (.app2 "Record" str str)]

/-- The hook parameter `(...args: Parameters<F>) => any` of
`hookfunction` / `replaceclosure`. -/
def hookParamTy : Ty := .fnT (tlist [.variadic (.app1 "Parameters" (.base "F"))]) anyT

/-- unnamed/part_001: two concatenated declaration documents — the closure
API, followed by the miscellaneous API (executor identity, LZ4, message box,
teleport queue, HTTP request, clipboard, FPS cap).  Both documents are
modules; their declarations are listed in source order. -/
def part001File : SourceFile :=
  ⟨"unnamed/part_001", true, true, [], [],
   [.aliasD .modLocal "Callback" [] callbackTy,
    gfn "checkcaller" [] boolT,
    clonefunctionDecl,
    gfn "getcallingscript" [] (.base "BaseScript"),
    gfnG "hookfunction" [tpc "F" (.base "Callback")]
      [pr "func" (.base "F"), pr "hook" hookParamTy] (.base "F"),
    gfnG "replaceclosure" [tpc "F" (.base "Callback")]
      [pr "func" (.base "F"), pr "hook" hookParamTy] (.base "F"),
    gfn "iscclosure" [pr "func" (.base "Callback")] boolT,
    gfn "islclosure" [pr "func" (.base "Callback")] boolT,
    gfn "isexecutorclosure" [pr "func" (.base "Callback")] boolT,
    gfn "loadstring" [pr "source" str, po "chunkname" str] (.base "Callback"),
    newcclosureDecl,
    gfn "identifyexecutor" [] (.app1 "LuaTuple" (.tup (tlist [str, str]))),
    gfn "getexecutorname" [] (.app1 "LuaTuple" (.tup (tlist [str, str]))),
    gfn "lz4compress" [pr "data" str] str,
    gfn "lz4decompress" [pr "data" str, pr "size" num] str,
    gfn "messagebox" [pr "text" str, pr "caption" str, pr "flags" num] num,
    gfn "queue_on_teleport" [pr "code" str] voidT,
    gfn "queueonteleport" [pr "code" str] voidT,
    .ifaceD .glob "HttpRequest" []
      [fl "Url" str,
       fl "Method" (.union (.slit "GET") (.union (.slit "POST")
         (.union (.slit "PATCH") (.slit "PUT")))),
       flo "Body" str,
       flo "Headers" (.app2 "Record" str str),
       flo "Cookies" (.app2 "Record" str str)],
    .ifaceD .glob "HttpResponse" [] httpResponseFields,
    gfn "request" [pr "options" (.base "HttpRequest")] (.base "HttpResponse"),
    gfn "setclipboard" [pr "text" str] voidT,
    gfn "toclipboard" [pr "text" str] voidT,
    gfn "setfpscap" [pr "fps" num] voidT]⟩

/-- unnamed/part_003: the WebSocket declarations.  The `WebSocket` interface
is module-local; the `WebSocket` namespace with `connect` is global. -/
def part003File : SourceFile :=
  ⟨"unnamed/part_003", true, true, [], [],
   [.ifaceD .modLocal "WebSocket" []
      [mth "Send" [str] voidT,
       mth "Close" [] voidT,
       fl "OnMessage" (.app1 "RBXScriptSignal" (.fnT (tlist [str]) voidT)),
       fl "OnClose" (.app1 "RBXScriptSignal" (.fnT .tnil voidT))],
    .nsD .glob "WebSocket",
    gfn "WebSocket.connect" [pr "url" str] (.base "WebSocket")]⟩

/-- The members of `HookableMetatable`, parameterised by the type given to the
`this` parameter: `unknown` in unnamed/part_004, `any` in unnamed/part_005. -/
def hookableFields (thisTy : Ty) : List Field :=
  [mth "__namecall" [thisTy, varargsAny] anyT,
   mth "__index" [thisTy, anyT] anyT,
   mth "__newindex" [thisTy, anyT, anyT] voidT,
   mth "__call" [thisTy, varargsAny] anyT,
   mth "__tostring" [thisTy] str,
   mth "__len" [thisTy] num,
   mth "__unm" [thisTy] anyT,
   mth "__add" [thisTy, anyT] anyT,
   mth "__sub" [thisTy, anyT] anyT,
   mth "__mul" [thisTy, anyT] anyT,
   mth "__div" [thisTy, anyT] anyT,
   mth "__mod" [thisTy, anyT] anyT,
   mth "__pow" [thisTy, anyT] anyT,
   mth "__concat" [thisTy, anyT] anyT,
   mth "__eq" [thisTy, anyT] boolT,
   mth "__lt" [thisTy, anyT] boolT,
   mth "__le" [thisTy, anyT] boolT,
   mth "__gc" [thisTy] voidT]

/-- The members of `CoreMetatable`, identical in unnamed/part_004 and 005. -/
def coreMetaFields : List Field :=
  [flo "__mode" (.union (.slit "k") (.union (.slit "v") (.union (.slit "kv") (.slit "s")))),
   flo "__metatable" str]

/-- `getrawmetatable`, identical in unnamed/part_004 and 005. -/
def getrawmetatableDecl : Decl :=
  gfnG "getrawmetatable" [tp "O"] [pr "object" (.base "O")] (.base "CoreMetatable")

/-- `setrawmetatable`, identical in unnamed/part_004 and 005. -/
def setrawmetatableDecl : Decl :=
  gfn "setrawmetatable" [pr "object" anyT, pr "metatable" (.base "CoreMetatable")] voidT

/-- `getnamecallmethod`, identical in unnamed/part_004 and 005. -/
def getnamecallmethodDecl : Decl := gfn "getnamecallmethod" [] str

/-- `isreadonly`, identical in unnamed/part_004 and 005. -/
def isreadonlyDecl : Decl := gfn "isreadonly" [pr "object" anyT] boolT

/-- `setreadonly`, identical in unnamed/part_004 and 005. -/
def setreadonlyDecl : Decl :=
  gfn "setreadonly" [pr "object" anyT, pr "readonly" boolT] voidT

/-- unnamed/part_004: the metatable API.  `HookableMetamethods` has no type
parameter; `hookmetamethod` returns `(object: unknown, ...) => unknown`. -/
def part004File : SourceFile :=
  ⟨"unnamed/part_004", true, true, [], [],
   [.ifaceD .modLocal "HookableMetatable" [] (hookableFields unk),
    .ifaceD .modLocal "CoreMetatable" ["HookableMetatable"] coreMetaFields,
    .aliasD .modLocal "HookableMetamethods" [] (.keyOf (.base "HookableMetatable")),
    getrawmetatableDecl,
    setrawmetatableDecl,
    gfnG "hookmetamethod" [tp "O", tpc "M" (.base "HookableMetamethods")]
      [pr "object" (.base "O"), pr "method" (.base "M"),
       pr "hook" (.idx (.base "HookableMetatable") (.base "M"))]
      (.fnT (tlist [unk,
         .variadic (.app1 "Parameters" (.idx (.base "HookableMetatable") (.base "M")))]) unk),
    getnamecallmethodDecl,
    isreadonlyDecl,
    setreadonlyDecl]⟩

/-- unnamed/part_005: a second metatable file.  Its `HookableMetatable` uses
`this: any`, `HookableMetamethods` takes a (unused) type parameter `O`, and
`hookmetamethod` returns `(object: O, ...) => any`. -/
def part005File : SourceFile :=
  ⟨"unnamed/part_005", true, false, [], [],
   [.ifaceD .modLocal "HookableMetatable" [] (hookableFields anyT),
    .ifaceD .modLocal "CoreMetatable" ["HookableMetatable"] coreMetaFields,
    .aliasD .modLocal "HookableMetamethods" ["O"] (.keyOf (.base "HookableMetatable")),
    getrawmetatableDecl,
    setrawmetatableDecl,
    gfnG "hookmetamethod" [tp "O", tpc "M" (.app1 "HookableMetamethods" (.base "O"))]
      [pr "object" (.base "O"), pr "method" (.base "M"),
       pr "hook" (.idx (.base "HookableMetatable") (.base "M"))]
      (.fnT (tlist [.base "O",
         .variadic (.app1 "Parameters" (.idx (.base "HookableMetatable") (.base "M")))]) anyT),
    getnamecallmethodDecl,
    isreadonlyDecl,
    setreadonlyDecl]⟩

/-- unnamed/part_006: the roblox.d.ts service interfaces referenced by the
index files.  No `export {}` and no directives: a global script file. -/
def part006File : SourceFile :=
  ⟨"unnamed/part_006", false, false, [], [],
   [.ifaceD .glob "CoreGui" ["BasePlayerGui"] [fl "Version" num],
    .ifaceD .glob "VirtualInputManager" ["Instance"]
      [mth "SendKeyEvent" [boolT, .base "Enum.KeyCode", boolT, .base "GuiObject"] voidT,
       mth "SendMouseWheelEvent" [num, num, boolT, .base "GuiObject"] voidT,
       mth "SendMouseButtonEvent" [num, num, num, boolT, .base "GuiObject"] voidT,
       mth "SendMouseMovementEvent" [num, num, .base "GuiObject"] voidT,
       mth "SendTextInputCharacterEvent" [str, .base "GuiObject"] voidT],
    .ifaceD .glob "VirtualUser" ["Instance"]
      [mth "Button1Down" [.optP (.base "Vector2"), .optP (.base "CFrame")] voidT,
       mth "Button1Up" [.optP (.base "Vector2"), .optP (.base "CFrame")] voidT,
       mth "Button2Down" [.optP (.base "Vector2"), .optP (.base "CFrame")] voidT,
       mth "Button2Up" [.optP (.base "Vector2"), .optP (.base "CFrame")] voidT,
       mth "ClickButton1" [.optP (.base "Vector2"), .optP (.base "CFrame")] voidT,
       mth "ClickButton2" [.optP (.base "Vector2"), .optP (.base "CFrame")] voidT,
       mth "MoveMouse" [.optP (.base "Vector2"), .optP (.base "CFrame")] voidT,
       mth "KeyDown" [str] voidT,
       mth "KeyUp" [str] voidT,
       mth "TypeKey" [str] voidT]]⟩

/-- The whole repository: its seventeen source files. -/
def repo : List SourceFile :=
  [cacheFile, consoleFile, cryptFile, debugFile, drawingFile, filesystemFile, inputFile,
   instancesFile, scriptsFile, indexFile, part000File, part001File, part002File,
   part003File, part004File, part005File, part006File]

/-! ## Derived views of the corpus -/

/-- Is this a function declaration? -/
def Decl.isFn : Decl → Bool
  | .fnD _ _ _ _ _ _ => true
  | _ => false

/-- The name of a function declaration. -/
def Decl.fnName : Decl → Option String
  | .fnD _ n _ _ _ _ => some n
  | _ => none

/-- The declared return type of a function declaration. -/
def Decl.retTy : Decl → Option Ty
  | .fnD _ _ _ _ r _ => some r
  | _ => none

/-- The body flag of a function declaration (`false` = pure signature). -/
def Decl.bodyFlag : Decl → Bool
  | .fnD _ _ _ _ _ b => b
  | _ => false

/-- The parameter types of a function declaration. -/
def Decl.paramTys : Decl → List Ty
  | .fnD _ _ _ ps _ _ => ps.map Param.pty
  | _ => []

/-- The name a declaration introduces (augmentations and module exports
introduce none: they extend names owned elsewhere). -/
def Decl.introduced : Decl → Option (Scope × String)
  | .fnD sc n _ _ _ _ => some (sc, n)
  | .constD sc n _ _ _ => some (sc, n)
  | .ifaceD sc n _ _ => some (sc, n)
  | .aliasD sc n _ _ => some (sc, n)
  | .nsD sc n => some (sc, n)
  | .ifaceAugD _ _ => none
  | .modExportD _ _ _ => none

/-- Every function declaration of the repository, in file order. -/
def allFnDecls : List Decl := (repo.map SourceFile.decls).flatten.filter Decl.isFn

/-- All declarations of the repository. -/
def allDecls : List Decl := (repo.map SourceFile.decls).flatten

/-- The type names referenced by a type expression (heads of named
references, applications, `typeof` queries and predicate targets). -/
def tyRefs : Ty → List String
  | .base n => [n]
  | .slit _ => []
  | .nlit _ => []
  | .app1 n a => n :: tyRefs a
  | .app2 n a b => n :: (tyRefs a ++ tyRefs b)
  | .union a b => tyRefs a ++ tyRefs b
  | .tnil => []
  | .tcons h t => tyRefs h ++ tyRefs t
  | .tup es => tyRefs es
  | .fnT ps r => tyRefs ps ++ tyRefs r
  | .variadic t => tyRefs t
  | .optP t => tyRefs t
  | .arr t => tyRefs t
  | .objNil => []
  | .objCons _ ft rest => tyRefs ft ++ tyRefs rest
  | .obj fs => tyRefs fs
  | .typeofRef n => [n]
  | .keyOf t => tyRefs t
  | .idx t k => tyRefs t ++ tyRefs k
  | .tpred _ n => [n]
  | .cond c e th el => tyRefs c ++ tyRefs e ++ tyRefs th ++ tyRefs el
  | .tmpl parts => tyRefs parts
  | .inferT _ => []
  | .tfor _ c b => tyRefs c ++ tyRefs b
  | .idxSig k v => tyRefs k ++ tyRefs v

/-- The names referenced by the types of a declaration (including extends
clauses and type-parameter constraints and defaults). -/
def declRefs : Decl → List String
  | .fnD _ _ tps ps r _ =>
      (tps.map fun t =>
        ((t.constr.map tyRefs).getD []) ++ ((t.dflt.map tyRefs).getD [])).flatten ++
      (ps.map fun p => tyRefs p.pty).flatten ++ tyRefs r
  | .constD _ _ t _ _ => tyRefs t
  | .ifaceD _ _ ext fs => ext ++ (fs.map fun f => tyRefs f.fty).flatten
  | .aliasD _ _ _ rhs => tyRefs rhs
  | .nsD _ _ => []
  | .ifaceAugD _ fs => (fs.map fun f => tyRefs f.fty).flatten
  | .modExportD _ _ t => tyRefs t

/-- All names a file's declarations refer to. -/
def fileRefs (f : SourceFile) : List String := ((f.decls.map declRefs).flatten).eraseDups

/-- The global names a file introduces into the shared ambient scope.
Module-local declarations are invisible to other files, and interface
augmentations extend names owned by external libraries. -/
def introducedGlobals (f : SourceFile) : List String :=
  f.decls.filterMap fun d =>
    match d.introduced with
    | some (.glob, n) => some n
    | _ => none

/-- The names a file declares as global functions. -/
def globalFnNames (f : SourceFile) : List String :=
  f.decls.filterMap fun d =>
    match d with
    | .fnD .glob n _ _ _ _ => some n
    | _ => none

/-- The names of all module-local declarations of a file. -/
def moduleLocalNames (f : SourceFile) : List String :=
  f.decls.filterMap fun d =>
    match d.introduced with
    | some (.modLocal, n) => some n
    | _ => none

/-- All declarations a file gives to a name. -/
def declsFor (f : SourceFile) (n : String) : List Decl :=
  f.decls.filter fun d =>
    match d.introduced with
    | some (_, m) => m == n
    | none => false

/-- The first type-alias declaration of a name in a file. -/
def aliasDecl (f : SourceFile) (n : String) : Option Decl :=
  f.decls.find? fun d =>
    match d with
    | .aliasD _ m _ _ => m == n
    | _ => false

/-! ### Error-reporting alternatives in declared types (claim C3) -/

/-- Flatten a union type into its list of alternatives. -/
def unionMembers : Ty → List Ty
  | .union a b => unionMembers a ++ unionMembers b
  | t => [t]

/-- The elements of a `tcons` chain. -/
def tupElems : Ty → List Ty
  | .tcons h t => h :: tupElems t
  | _ => []

def isUndefTy : Ty → Bool
  | .base "undefined" => true
  | _ => false

def isStrTy : Ty → Bool
  | .base "string" => true
  | _ => false

/-- An error-message tuple: a (possibly `LuaTuple`-wrapped) tuple type with
both an `undefined` element and a `string` element, the Lua convention for
"nil plus error message". -/
def errTuple : Ty → Bool
  | .tup es => (tupElems es).any isUndefTy && (tupElems es).any isStrTy
  | .app1 "LuaTuple" t => errTuple t
  | _ => false

/-- A union type one of whose alternatives is `undefined` or an
error-message tuple. -/
def errBranch (t : Ty) : Bool :=
  (unionMembers t).length > 1 &&
    (unionMembers t).any fun m => isUndefTy m || errTuple m

/-- Does the type contain, anywhere, a union with an error-reporting
alternative? -/
def containsErrBranch : Ty → Bool
  | .union a b => errBranch (.union a b) || containsErrBranch a || containsErrBranch b
  | .app1 _ a => containsErrBranch a
  | .app2 _ a b => containsErrBranch a || containsErrBranch b
  | .tcons h t => containsErrBranch h || containsErrBranch t
  | .tup es => containsErrBranch es
  | .fnT ps r => containsErrBranch ps || containsErrBranch r
  | .variadic t => containsErrBranch t
  | .optP t => containsErrBranch t
  | .arr t => containsErrBranch t
  | .objCons _ ft rest => containsErrBranch ft || containsErrBranch rest
  | .obj fs => containsErrBranch fs
  | .keyOf t => containsErrBranch t
  | .idx t k => containsErrBranch t || containsErrBranch k
  | .cond c e th el =>
      containsErrBranch c || containsErrBranch e || containsErrBranch th ||
      containsErrBranch el
  | .tmpl parts => containsErrBranch parts
  | .tfor _ c b => containsErrBranch c || containsErrBranch b
  | .idxSig k v => containsErrBranch k || containsErrBranch v
  | _ => false

/-- The declared return type of the first function of the given name. -/
def retOf (n : String) : Option Ty :=
  (allFnDecls.find? fun d => d.fnName == some n).bind Decl.retTy

/-! ### Alias-pair signatures (claim C9) -/

/-- The (type parameters, parameters, return type) of the first function
declaration of the given name anywhere in the corpus. -/
def fnSig (n : String) : Option (List TyParam × List Param × Ty) :=
  (allFnDecls.find? fun d => d.fnName == some n).bind fun d =>
    match d with
    | .fnD _ _ tps ps r _ => some (tps, ps, r)
    | _ => none

/-- The declared type of the first global const of the given name. -/
def constTyOf (n : String) : Option Ty :=
  (allDecls.find? fun d =>
    match d with
    | .constD _ m _ _ _ => m == n
    | _ => false).bind fun d =>
      match d with
      | .constD _ _ t _ _ => some t
      | _ => none

/-- The signature a name denotes: a function declaration's own signature, or,
for a const declared as `typeof f`, the signature of `f`. -/
def sigOfName (n : String) : Option (List TyParam × List Param × Ty) :=
  match fnSig n with
  | some s => some s
  | none =>
      match constTyOf n with
      | some (.typeofRef m) => fnSig m
      | _ => none

/-- Every pair of declared names whose doc comments mark them as aliases of
one another (the `@alias` tags of console.d.ts, crypt.d.ts, scripts.d.ts,
input.d.ts / part_002, and part_001). -/
def aliasPairs : List (String × String) :=
  [("rconsoleclear", "consoleclear"),
   ("rconsolecreate", "consolecreate"),
   ("rconsoledestroy", "consoledestroy"),
   ("rconsoleinput", "consoleinput"),
   ("rconsoleprint", "consoleprint"),
   ("rconsolesettitle", "rconsolename"),
   ("rconsolesettitle", "consolesettitle"),
   ("crypt.base64encode", "crypt.base64_encode"),
   ("crypt.base64encode", "crypt.base64.encode"),
   ("crypt.base64encode", "base64_encode"),
   ("crypt.base64encode", "base64.encode"),
   ("crypt.base64decode", "crypt.base64_decode"),
   ("crypt.base64decode", "crypt.base64.decode"),
   ("crypt.base64decode", "base64_decode"),
   ("crypt.base64decode", "base64.decode"),
   ("isrbxactive", "isgameactive"),
   ("hookfunction", "replaceclosure"),
   ("identifyexecutor", "getexecutorname"),
   ("queue_on_teleport", "queueonteleport"),
   ("setclipboard", "toclipboard"),
   ("getscriptbytecode", "dumpstring"),
   ("getscriptclosure", "getscriptfunction"),
   ("getthreadidentity", "getidentity"),
   ("getthreadidentity", "getthreadcontext"),
   ("setthreadidentity", "setidentity"),
   ("setthreadidentity", "setthreadcontext")]

/-! ### Cross-file references and mutable state (claim C6) -/

/-- Does any declaration of `f` use a global name introduced by the distinct
file `g`, other than an index file reaching roblox.d.ts (unnamed/part_006)
through its own reference directives? -/
def crossRefOk : Bool :=
  repo.all fun f =>
    repo.all fun g =>
      f.path == g.path ||
        (fileRefs f).all fun n =>
          !((introducedGlobals g).contains n) ||
            ((f.path == "types/index.d.ts" || f.path == "unnamed/part_000") &&
              g.path == "unnamed/part_006" && f.refPaths.contains "roblox.d.ts")

/-- Every declared variable of the corpus uses `const`. -/
def noMutableGlobals : Bool :=
  allDecls.all fun d =>
    match d with
    | .constD _ _ _ c _ => c
    | _ => true

/-! ### A value semantics for declared object shapes (claim C8) -/

/-- Runtime values for interpreting the declared entity shapes. -/
inductive Value where
  | undef
  | boolV (b : Bool)
  | numV (n : Int)
  | strV (s : String)
  | fnV
  | instV (cls : String)
  | tableV
  | threadV
deriving Repr, DecidableEq

/-- Does a value inhabit a declared (field) type?  Primitive names and
literals constrain the value's kind; `any`/`unknown` admit everything;
a union admits a value admitted by either side; function types admit
functions; array and object types admit tables; other named types admit
host objects carrying that name. -/
def admitsTy : Ty → Value → Bool
  | .base "boolean", .boolV _ => true
  | .base "number", .numV _ => true
  | .base "string", .strV _ => true
  | .base "undefined", .undef => true
  | .base "any", _ => true
  | .base "unknown", _ => true
  | .base "Callback", .fnV => true
  | .base n, .instV c => n == c
  | .slit s, .strV t => s == t
  | .nlit n, .numV m => (n : Int) == m
  | .union a b, v => admitsTy a v || admitsTy b v
  | .fnT _ _, .fnV => true
  | .tfor _ _ (.fnT _ _), .fnV => true
  | .arr _, .tableV => true
  | .obj _, .tableV => true
  | .idxSig _ _, .tableV => true
  | .app1 n _, .instV c => n == c
  | .app2 n _ _, .instV c => n == c
  | _, _ => false

/-- Does a value inhabit a declared member?  An optional member also admits
`undefined`. -/
def admitsField (f : Field) (v : Value) : Bool :=
  (f.fopt && v == .undef) || admitsTy f.fty v

/-- Does a record (an assignment of a value to every member name) inhabit a
declared shape?  Each member is checked against its own declared type and
nothing else — this is the semantics of a TypeScript interface body. -/
def admitsShape (fs : List Field) (r : String → Value) : Bool :=
  fs.all fun f => admitsField f (r f.fname)

/-- Every object shape the corpus declares (interfaces and the two interface
augmentations), with its name. -/
def allShapes : List (String × List Field) :=
  (repo.map fun f =>
    f.decls.filterMap fun d =>
      match d with
      | .ifaceD _ n _ fs => some (n, fs)
      | .ifaceAugD n fs => some (n, fs)
      | _ => none).flatten

/-! ### Type substitution (claim C10) -/

/-- Substitute the type `t` for the type variable `x`. -/
def substTy (x : String) (t : Ty) : Ty → Ty
  | .base n => if n == x then t else .base n
  | .slit s => .slit s
  | .nlit n => .nlit n
  | .app1 n a => .app1 n (substTy x t a)
  | .app2 n a b => .app2 n (substTy x t a) (substTy x t b)
  | .union a b => .union (substTy x t a) (substTy x t b)
  | .tnil => .tnil
  | .tcons h tl => .tcons (substTy x t h) (substTy x t tl)
  | .tup es => .tup (substTy x t es)
  | .fnT ps r => .fnT (substTy x t ps) (substTy x t r)
  | .variadic a => .variadic (substTy x t a)
  | .optP a => .optP (substTy x t a)
  | .arr a => .arr (substTy x t a)
  | .objNil => .objNil
  | .objCons n ft rest => .objCons n (substTy x t ft) (substTy x t rest)
  | .obj fs => .obj (substTy x t fs)
  | .typeofRef n => .typeofRef n
  | .keyOf a => .keyOf (substTy x t a)
  | .idx a k => .idx (substTy x t a) (substTy x t k)
  | .tpred v n => .tpred v n
  | .cond c e th el => .cond (substTy x t c) (substTy x t e) (substTy x t th) (substTy x t el)
  | .tmpl parts => .tmpl (substTy x t parts)
  | .inferT n => .inferT n
  | .tfor v c b => .tfor v (substTy x t c) (substTy x t b)
  | .idxSig k v => .idxSig (substTy x t k) (substTy x t v)

/-- The parameter types of a declaration after instantiating one type
variable. -/
def instParamTys (x : String) (t : Ty) (d : Decl) : List Ty :=
  d.paramTys.map (substTy x t)

/-- The return type of a declaration after instantiating one type variable. -/
def instRetTy (x : String) (t : Ty) (d : Decl) : Option Ty :=
  d.retTy.map (substTy x t)

/-! ### Duplicate global declarations across files (claims C2, C5) -/

/-- For every global name introduced by two distinct files, either both files
give the name exactly the same declarations, or the name is `hookmetamethod`
(whose two declarations merge as distinct overloads). -/
def dupGlobalsConsistent : Bool :=
  repo.all fun f =>
    repo.all fun g =>
      f.path == g.path ||
        (introducedGlobals f).all fun n =>
          !((introducedGlobals g).contains n) ||
            declsFor f n == declsFor g n || n == "hookmetamethod"

/-- The functions the cache / cloneref / compareinstances construct declares
(all of types/api/cache.d.ts). -/
def cacheFns : List Decl := cacheFile.decls.filter Decl.isFn

/-- The names of the module-scoped declarations of the whole corpus: the
`Callback` aliases of instances.d.ts, scripts.d.ts and part_001,
`ClickDetectorEvents`, the `roblox_debug` namespace and its members, the
`WebSocket` interface, and the metatable helper types of part_004/005. -/
def expectedModuleLocals : List String :=
  ["Callback", "ClickDetectorEvents",
   "Callback", "roblox_debug", "roblox_debug.traceback", "roblox_debug.traceback",
   "roblox_debug.profilebegin", "roblox_debug.profileend", "roblox_debug.info",
   "roblox_debug.info", "roblox_debug.setmemorycategory",
   "roblox_debug.resetmemorycategory",
   "Callback", "WebSocket",
   "HookableMetatable", "CoreMetatable", "HookableMetamethods",
   "HookableMetatable", "CoreMetatable", "HookableMetamethods"]

/-- All module-export declarations of the corpus. -/
def allModExports : List Decl :=
  allDecls.filter fun d =>
    match d with
    | .modExportD _ _ _ => true
    | _ => false

/-- A record inhabiting `Connection` whose connection is foreign-state while
its `Function` member is still a function: the declared member types accept
it, so no "Function is undefined exactly when ForeignState is true"
dependency is imposed at the type level. -/
def connForeign : String → Value := fun k =>
  if k == "ForeignState" then .boolV true
  else if k == "Enabled" then .boolV true
  else if k == "LuaConnection" then .boolV false
  else if k == "Function" then .fnV
  else if k == "Thread" then .threadV
  else .fnV

/-- A second `Connection` record, with `Function` and `Thread` undefined. -/
def connDetached : String → Value := fun k =>
  if k == "ForeignState" then .boolV false
  else if k == "Enabled" then .boolV false
  else if k == "LuaConnection" then .boolV true
  else if k == "Function" then .undef
  else if k == "Thread" then .undef
  else .fnV

/-- The declared functions whose return type carries an error-reporting
alternative. -/
def errRetFns : List String := ["loadfile", "getcallbackvalue", "isscriptable"]

/-- A declaration is ambient: a function signature without a body, a `const`
without an initializer, or a pure type/namespace/augmentation/re-export
declaration (which cannot carry an implementation). -/
def declAmbient : Decl → Bool
  | .fnD _ _ _ _ _ b => !b
  | .constD _ _ _ c i => c && !i
  | _ => true

/-! ## The claims -/

/-- C1: every function declared in the repository is an ambient signature —
a name with parameter types and a return type and no implementation body.
The corpus declares 142 function signatures; none carries a body, so the
shallow embedding of each declared function is exactly its recorded
(uninterpreted) signature. -/
theorem c1_functions_are_bodiless_signatures :
    allFnDecls.length = 142 ∧ (allFnDecls.all fun d => d.bodyFlag == false) = true := by
  decide

/-- C2 counterexample: the type alias `HookableMetamethods` does not have a
single consistent definition across unnamed/part_004 and unnamed/part_005 —
the two files' alias declarations for that name differ (part_004 declares it
without type parameters, part_005 with a type parameter `O`). -/
theorem c2_counterexample_hookable_metamethods_mismatch :
    aliasDecl part004File "HookableMetamethods" ≠ aliasDecl part005File "HookableMetamethods"
    ∧ (aliasDecl part004File "HookableMetamethods").isSome = true
    ∧ (aliasDecl part005File "HookableMetamethods").isSome = true := by
  decide

/-- C2 amended: every global name declared by more than one source file gets
exactly the same declarations in each (so duplicate declarations merge
without conflict), except `hookmetamethod`, whose two declarations merge as
distinct overloads.  The type alias `Callback` has one consistent definition
(`(...args: any[]) => any`) in its three files.  `HookableMetamethods` does
not: both files alias `keyof HookableMetatable`, but part_004 declares no
type parameter while part_005 declares one; being module-local, the two
aliases never meet in the global scope. -/
theorem c2_amended_duplicate_declarations_consistent :
    dupGlobalsConsistent = true
    ∧ aliasDecl instancesFile "Callback" = some (.aliasD .modLocal "Callback" [] callbackTy)
    ∧ aliasDecl scriptsFile "Callback" = some (.aliasD .modLocal "Callback" [] callbackTy)
    ∧ aliasDecl part001File "Callback" = some (.aliasD .modLocal "Callback" [] callbackTy)
    ∧ aliasDecl part004File "HookableMetamethods" =
        some (.aliasD .modLocal "HookableMetamethods" [] (.keyOf (.base "HookableMetatable")))
    ∧ aliasDecl part005File "HookableMetamethods" =
        some (.aliasD .modLocal "HookableMetamethods" ["O"]
          (.keyOf (.base "HookableMetatable"))) := by
  decide

/-- C3 counterexample: `loadfile` is a declared function whose declared
return type does encode an error-reporting alternative — the union
`Callback | LuaTuple<[undefined, string]>`, whose second alternative is an
error-message tuple. -/
theorem c3_counterexample_loadfile_error_tuple :
    loadfileDecl ∈ filesystemFile.decls
    ∧ (retOf "loadfile").map containsErrBranch = some true := by
  decide

/-- C3 amended: exactly three declared functions carry an error-reporting
alternative in their declared return type — `loadfile` (error-message
tuple), `getcallbackvalue` and `isscriptable` (undefined-on-failure
branches) — and the `HttpResponse` shape returned by `request` declares a
`Success: boolean` flag; every other declared function's return type
contains no undefined branch and no error tuple, and no failure behavior is
implemented in the repository. -/
theorem c3_amended_error_alternatives_enumerated :
    (allFnDecls.all fun d =>
      !containsErrBranch (d.retTy.getD voidT) || errRetFns.contains (d.fnName.getD "")) = true
    ∧ (errRetFns.all fun n => (retOf n).map containsErrBranch == some true) = true
    ∧ Decl.ifaceD .glob "HttpResponse" [] httpResponseFields ∈ part001File.decls
    ∧ fl "Success" boolT ∈ httpResponseFields := by
  decide

/-- C4 counterexample: the cache / cloneref / compareinstances construct
(the whole of types/api/cache.d.ts) declares five functions, not exactly
three: `cache.invalidate`, `cache.iscached`, `cache.replace` inside the
namespace, plus the globals `cloneref` and `compareinstances`. -/
theorem c4_counterexample_cache_construct_five_functions :
    cacheFns.length = 5 ∧ cacheFns.length ≠ 3 := by
  decide

/-- C4 amended: the construct is a forwarding facade of five bodiless
function signatures — three inside the `cache` namespace and the two
globals `cloneref` and `compareinstances` — and the file contains nothing
else beyond the namespace declaration itself. -/
theorem c4_amended_cache_construct_facade :
    cacheFns.filterMap Decl.fnName =
      ["cache.invalidate", "cache.iscached", "cache.replace", "cloneref", "compareinstances"]
    ∧ (cacheFns.filter fun d =>
        ["cache.invalidate", "cache.iscached", "cache.replace"].contains
          (d.fnName.getD "")).length = 3
    ∧ (cacheFns.all fun d => d.bodyFlag == false) = true
    ∧ cacheFile.decls.length = 6 := by
  decide

/-- C5 counterexample: the two input-simulation files do not declare the
same set of global names — `keypress` is declared by types/api/input.d.ts
but not by unnamed/part_002. -/
theorem c5_counterexample_keypress_missing_in_part002 :
    (globalFnNames inputFile).contains "keypress" = true
    ∧ (globalFnNames part002File).contains "keypress" = false := by
  decide

/-- C5 amended: every global name of unnamed/part_002 is declared
identically in types/api/input.d.ts, but input.d.ts additionally declares
`keypress` and `keyrelease`; the two metatable files declare the same six
global names, identically except for `hookmetamethod`, whose constraint and
return type differ between unnamed/part_004 and unnamed/part_005. -/
theorem c5_amended_twin_files_agreement :
    ((globalFnNames part002File).all fun n =>
      declsFor inputFile n == declsFor part002File n) = true
    ∧ (globalFnNames inputFile).removeAll (globalFnNames part002File) =
        ["keypress", "keyrelease"]
    ∧ globalFnNames part004File = globalFnNames part005File
    ∧ ((globalFnNames part004File).all fun n =>
        n == "hookmetamethod" || declsFor part004File n == declsFor part005File n) = true
    ∧ declsFor part004File "hookmetamethod" ≠ declsFor part005File "hookmetamethod" := by
  decide

/-- C6: no declaration of any file references a name introduced by another
file of the repository, except the two index files reaching the service
interfaces of roblox.d.ts (unnamed/part_006) through their own reference
directives; and every declared variable is a `const`, so no file declares
mutable global state. -/
theorem c6_no_cross_file_dependencies_no_mutable_state :
    crossRefOk = true ∧ noMutableGlobals = true := by
  decide

/-- C7 counterexample: not every declared namespace is global — the
`roblox_debug` namespace of types/api/scripts.d.ts is declared at the top
level of a module file, so it is module-scoped and no global `roblox_debug`
value may be assumed by calling code. -/
theorem c7_counterexample_roblox_debug_module_scoped :
    Decl.nsD .modLocal "roblox_debug" ∈ scriptsFile.decls
    ∧ Scope.modLocal ≠ Scope.glob := by
  decide

/-- C7 amended: every declaration of the corpus is ambient (no function
body, no initializer — nothing implemented or owned by the codebase); all
declarations are global except an explicit list of module-scoped helper
types and namespaces (the `Callback` aliases, `ClickDetectorEvents`, the
`roblox_debug` namespace and its member signatures, the `WebSocket`
interface, and the metatable helper types of part_004/005); and the only
module-scoped exports are the two index files' @rbxts/services re-exports
of the already-declared global service types. -/
theorem c7_amended_ambient_declarations_scopes :
    (allDecls.all declAmbient) = true
    ∧ (repo.map moduleLocalNames).flatten = expectedModuleLocals
    ∧ allModExports = servicesReExports ++ servicesReExports := by
  decide

/-- C8: no declared object shape imposes a type-level dependency between its
members: a record is admitted by a shape exactly when each member value is
admitted by that member's own declared type, so admitted values for
different members combine freely — mixing any two admitted records
memberwise again yields an admitted record. -/
theorem c8_no_field_dependencies_in_shapes :
    ∀ s ∈ allShapes, ∀ (r1 r2 : String → Value) (p : String → Bool),
      admitsShape s.2 r1 = true → admitsShape s.2 r2 = true →
      admitsShape s.2 (fun k => if p k then r1 k else r2 k) = true := by
  intro s _ r1 r2 p h1 h2
  simp only [admitsShape, List.all_eq_true] at h1 h2 ⊢
  intro f hf
  by_cases hp : p f.fname
  · simpa [hp] using h1 f hf
  · simpa [hp] using h2 f hf

/-- C8 witness: instantiating the independence theorem at the `Connection`
shape.  The record `connForeign` has `ForeignState` true while `Function`
is a function (not undefined) and is admitted, exhibiting concretely that
the declared member types impose no Function/ForeignState dependency. -/
theorem c8_witness_connection_mix :
    admitsShape connectionFields
      (fun k => if k == "Function" then connForeign k else connDetached k) = true
    ∧ admitsShape connectionFields connForeign = true
    ∧ connForeign "ForeignState" = Value.boolV true
    ∧ connForeign "Function" ≠ Value.undef :=
  ⟨c8_no_field_dependencies_in_shapes ("Connection", connectionFields) (by decide)
      connForeign connDetached (fun k => k == "Function") (by decide) (by decide),
   by decide, by decide, by decide⟩

/-- C9: every documented alias pair among the declared functions resolves to
the same signature — identical type parameters, parameters and return type —
so either member substitutes for the other at the type level. -/
theorem c9_alias_pairs_identical_signatures :
    (aliasPairs.all fun ab =>
      sigOfName ab.1 == sigOfName ab.2 && (sigOfName ab.1).isSome) = true := by
  decide

/-- C10: the reference-cloning operations are declared type-preserving.
`cloneref` is declared `<O extends Instance>(object: O): O` and
`clonefunction` / `newcclosure` are declared
`<F extends (...args: any[]) => any>(func: F): F`, so instantiating the
type variable at any type expression yields parameter list `[t]` and return
type `t`: the declared static type of every clone equals that of its
argument. -/
theorem c10_cloning_functions_type_preserving :
    ∀ t : Ty,
      (clonerefDecl ∈ cacheFile.decls
        ∧ clonefunctionDecl ∈ part001File.decls
        ∧ newcclosureDecl ∈ part001File.decls
        ∧ clonerefDecl = gfnG "cloneref" [tpc "O" instT] [pr "object" (.base "O")] (.base "O")
        ∧ clonefunctionDecl =
            gfnG "clonefunction" [tpc "F" callbackTy] [pr "func" (.base "F")] (.base "F")
        ∧ newcclosureDecl =
            gfnG "newcclosure" [tpc "F" callbackTy] [pr "func" (.base "F")] (.base "F"))
      ∧ instParamTys "O" t clonerefDecl = [t] ∧ instRetTy "O" t clonerefDecl = some t
      ∧ instParamTys "F" t clonefunctionDecl = [t] ∧ instRetTy "F" t clonefunctionDecl = some t
      ∧ instParamTys "F" t newcclosureDecl = [t] ∧ instRetTy "F" t newcclosureDecl = some t :=
  fun _ => ⟨by decide, rfl, rfl, rfl, rfl, rfl, rfl⟩

/-- C10 applied at the concrete type `Instance`: the instantiated signature
of `cloneref` is `(object: Instance) => Instance`. -/
theorem c10_witness_cloneref_at_instance :
    instParamTys "O" instT clonerefDecl = [instT]
    ∧ instRetTy "O" instT clonerefDecl = some instT :=
  ⟨(c10_cloning_functions_type_preserving instT).2.1,
   (c10_cloning_functions_type_preserving instT).2.2.1⟩

end UNC
